import Mathlib

/-!
Shallow embedding of the JasraWGN/Speech-to-Text-V2 repository
(`vosk_speech_to_text.py` and `build_exe.py`) and proofs of the frozen
claims about it.

The GUI application delegates recognition, audio capture and model loading
to external libraries; the repository's own behaviour is the UI state
machine, the transcript buffer operations, the background recognition
loop, the error handlers, and the PyInstaller argument construction in
the build script.  Each Lean definition below transcribes one of those
pieces of Python; external effects (dialogs, file writes, deferred
callbacks scheduled with `root.after`) are reified as data.
-/

namespace Vosk

/-- Python `str.strip()` whitespace predicate restricted to the ASCII
whitespace characters (space, tab, newline, carriage return, vertical
tab, form feed), which is what transcripts produced by the recognizer can
contain. -/
def pyIsSpace (c : Char) : Bool :=
  c = ' ' || c = '\t' || c = '\n' || c = '\r' || c = '\x0b' || c = '\x0c'

/-- Python `s.strip()`: remove leading and trailing whitespace. -/
def pyStrip (s : String) : String :=
  String.mk (((s.toList.dropWhile pyIsSpace).reverse.dropWhile pyIsSpace).reverse)

/-- `_add_transcript_impl` (vosk_speech_to_text.py lines 267-275): if the
incoming text strips to non-empty, append it (preceded by a space when the
buffer is non-empty after stripping) and a newline at `tk.END`; otherwise
do nothing.  The `ScrolledText` widget content is modelled as a `String`,
and `insert tk.END` as string append. -/
def add_transcript_impl (buffer text : String) : String :=
  if pyStrip text ≠ "" then
    if pyStrip buffer ≠ "" then
      buffer ++ (" " ++ pyStrip text ++ "\n")
    else
      buffer ++ (pyStrip text ++ "\n")
  else
    buffer

/-- `clear_transcript` (lines 295-298): `delete("1.0", tk.END)` empties the
transcript widget. -/
def clear_transcript (_buffer : String) : String := ""

/-- The operations of the program that modify the transcript text widget:
`_add_transcript_impl` and `clear_transcript` are the only two call sites
of `insert`/`delete` on `self.transcript_text`. -/
inductive TranscriptOp where
  | add (text : String)
  | clear
deriving DecidableEq

/-- Apply one transcript-modifying operation to the buffer. -/
def apply_transcript_op (op : TranscriptOp) (buffer : String) : String :=
  match op with
  | TranscriptOp.add t => add_transcript_impl buffer t
  | TranscriptOp.clear => clear_transcript buffer

/-- Observable effects of `save_transcript` (lines 300-323): the
informational dialog, the save-file dialog, the file write, and the error
dialog. -/
inductive SaveEffect where
  | showInfo (title msg : String)
  | askSaveFilename
  | writeFile (name content : String)
  | showError (title msg : String)
deriving DecidableEq

/-- `save_transcript` (lines 300-323).  `chosen` is the filename returned
by `filedialog.asksaveasfilename` (the empty string models cancellation,
matching the `if filename:` truthiness test); `writeErr` is `some e` when
`open`/`write` raises an exception with message `e`, `none` when the write
succeeds.  Returns the list of external effects in program order. -/
def save_transcript (buffer : String) (chosen : String) (writeErr : Option String) :
    List SaveEffect :=
  let transcript := pyStrip buffer
  if transcript = "" then
    [SaveEffect.showInfo "Save Transcript" "No transcript to save."]
  else if chosen = "" then
    [SaveEffect.askSaveFilename]
  else
    match writeErr with
    | none =>
        [SaveEffect.askSaveFilename,
         SaveEffect.writeFile chosen transcript,
         SaveEffect.showInfo "Save Transcript" ("Transcript saved to " ++ chosen)]
    | some e =>
        [SaveEffect.askSaveFilename,
         SaveEffect.showError "Save Error" ("Failed to save transcript: " ++ e)]

/-- A UI update that the worker thread wants performed on the widgets. -/
inductive UIUpdate where
  | addTranscriptText (t : String)
  | updatePartialText (t : String)
  | statusChange (statusText color : String)
deriving DecidableEq

/-- How a UI update is delivered from the worker thread: either scheduled
as a deferred callback with `root.after(0, ...)`, or performed by mutating
the widget directly on the worker thread. -/
inductive WorkerEffect where
  | deferred (u : UIUpdate)
  | direct (u : UIUpdate)
deriving DecidableEq

/-- Whether a worker effect is a deferred (`root.after`) callback. -/
def WorkerEffect.isDeferred : WorkerEffect → Bool
  | WorkerEffect.deferred _ => true
  | WorkerEffect.direct _ => false

/-- `add_transcript` (lines 263-265): schedules `_add_transcript_impl` on
the main thread via `root.after(0, ...)`. -/
def add_transcript (t : String) : WorkerEffect :=
  WorkerEffect.deferred (UIUpdate.addTranscriptText t)

/-- `update_partial` (lines 277-279): schedules the partial-result status
update on the main thread via `root.after(0, ...)`. -/
def update_partial_result (t : String) : WorkerEffect :=
  WorkerEffect.deferred (UIUpdate.updatePartialText t)

/-- The `root.after(0, lambda: self.update_status("Error", "red"))` call in
the outer exception handler of `recognize_speech` (line 261). -/
def deferred_status_update (statusText color : String) : WorkerEffect :=
  WorkerEffect.deferred (UIUpdate.statusChange statusText color)

/-- What one iteration of the recognition loop body does after the chunk
read is issued: the read returns an empty chunk, `AcceptWaveform` accepts
the chunk and `Result()` yields final text `t`, `AcceptWaveform` rejects it
and `PartialResult()` yields partial text `t`, or some call in the body
raises an exception (caught by the inner `except`). -/
inductive BodyOutcome where
  | emptyChunk
  | finalResult (t : String)
  | partialResult (t : String)
  | raised
deriving DecidableEq

/-- The values the recognition loop observes on one iteration:
`whileFlag` is `self.is_listening` as read by the `while` condition,
`outcome` is what the body then does, and `exceptFlag` is
`self.is_listening` as re-read by the inner `except` handler (consulted
only when `outcome` is `raised`). -/
structure IterInput where
  whileFlag : Bool
  outcome : BodyOutcome
  exceptFlag : Bool
deriving DecidableEq

/-- The recognition loop of `recognize_speech` (lines 228-254), as a
function of the per-iteration observations.  Returns the list of chunk
sizes requested from `stream.read` (in order) and the list of UI effects
the worker emits.  Each iteration whose `while` condition reads `True`
issues one `stream.read(4000, ...)`; a final result `t` emits
`add_transcript t` when `t` is non-empty (the `if transcript:` test); a
partial result `t` emits `update_partial_result t` when `t` is non-empty;
on a raised exception the handler logs, then breaks if `is_listening` now
reads `False`, otherwise continues with the next iteration.  (Log records
are not modelled as UI effects; the `TextHandler` also delivers them with
`after(0, ...)`.) -/
def recognizeLoop : List IterInput → List Nat × List WorkerEffect
  | [] => ([], [])
  | it :: rest =>
    if it.whileFlag = true then
      match it.outcome with
      | BodyOutcome.emptyChunk =>
          (4000 :: (recognizeLoop rest).1, (recognizeLoop rest).2)
      | BodyOutcome.finalResult t =>
          (4000 :: (recognizeLoop rest).1,
           (if t ≠ "" then [add_transcript t] else []) ++ (recognizeLoop rest).2)
      | BodyOutcome.partialResult t =>
          (4000 :: (recognizeLoop rest).1,
           (if t ≠ "" then [update_partial_result t] else []) ++ (recognizeLoop rest).2)
      | BodyOutcome.raised =>
          if it.exceptFlag = true then
            (4000 :: (recognizeLoop rest).1, (recognizeLoop rest).2)
          else
            ([4000], [])
    else
      ([], [])

/-- `recognize_speech` (lines 210-261): open the microphone stream and run
the recognition loop; if opening the stream (or anything escaping the
loop) raises, the outer handler logs, clears `is_listening` and defers a
status update to the main thread via `root.after`. -/
def recognize_speech (its : List IterInput) (openOk : Bool) :
    List Nat × List WorkerEffect :=
  if openOk then
    recognizeLoop its
  else
    ([], [deferred_status_update "Error" "red"])

/-- A tkinter button state: `tk.NORMAL` (enabled) or `tk.DISABLED`. -/
inductive BtnState where
  | normal
  | disabled
deriving DecidableEq

/-- The application state tracked by `VoskSpeechToText`: the listening
flag, whether `self.model` holds a loaded model, whether `self.audio`,
`self.recognizer`, the worker thread and the open stream exist, the three
stateful buttons, and the status display.  (The transcript buffer and the
model-path entry are modelled separately; no tracked field depends on
them.) -/
structure AppState where
  is_listening : Bool
  modelLoaded : Bool
  audio : Bool
  recognizer : Bool
  thread : Bool
  streamOpen : Bool
  start_button : BtnState
  stop_button : BtnState
  check_model_button : BtnState
  statusText : String
  statusColor : String
deriving DecidableEq

/-- The state after `__init__`/`create_widgets` (lines 22-46, 83, 86):
nothing loaded, start and stop buttons `DISABLED` (lines 83, 86), check
button `NORMAL` (line 44), status "Ready". -/
def initState : AppState :=
  { is_listening := false
    modelLoaded := false
    audio := false
    recognizer := false
    thread := false
    streamOpen := false
    start_button := BtnState.disabled
    stop_button := BtnState.disabled
    check_model_button := BtnState.normal
    statusText := "Ready"
    statusColor := "gray" }

/-- How one call to `check_model` (lines 128-146) turns out: the path does
not exist, `Model(model_path)` raises, or the model loads. -/
inductive CheckOutcome where
  | pathMissing
  | loadFail
  | loadOk
deriving DecidableEq

/-- `check_model` (lines 128-146): on a missing path or a load failure it
logs and shows an error dialog without changing state; on success it
stores the model and enables the start button (line 143). -/
def check_model (s : AppState) (o : CheckOutcome) : AppState :=
  match o with
  | CheckOutcome.pathMissing => s
  | CheckOutcome.loadFail => s
  | CheckOutcome.loadOk =>
      { s with modelLoaded := true, start_button := BtnState.normal }

/-- Where a call to `start_listening` (lines 148-178) first raises, if
anywhere: in `pyaudio.PyAudio()`, in `KaldiRecognizer(...)`, in
`thread.start()`, or nowhere (`ok`). -/
inductive StartOutcome where
  | ok
  | failAudioInit
  | failRecognizerInit
  | failThreadStart
deriving DecidableEq

/-- `start_listening` (lines 148-178): returns immediately if already
listening (lines 150-152); otherwise sets the flag and status, creates the
audio object, recognizer and worker thread, and flips the three buttons;
on an exception the handler resets `is_listening`, logs, shows an error
dialog and sets the status to Error — the assignments made before the
raise (and the button states) are left as they were. -/
def start_listening (s : AppState) (o : StartOutcome) : AppState :=
  if s.is_listening = true then s
  else
    let s1 := { s with is_listening := true
                       statusText := "Listening..."
                       statusColor := "green" }
    match o with
    | StartOutcome.ok =>
        { s1 with audio := true
                  recognizer := true
                  thread := true
                  start_button := BtnState.disabled
                  stop_button := BtnState.normal
                  check_model_button := BtnState.disabled }
    | StartOutcome.failAudioInit =>
        { s1 with is_listening := false
                  statusText := "Error"
                  statusColor := "red" }
    | StartOutcome.failRecognizerInit =>
        { s1 with audio := true
                  is_listening := false
                  statusText := "Error"
                  statusColor := "red" }
    | StartOutcome.failThreadStart =>
        { s1 with audio := true
                  recognizer := true
                  is_listening := false
                  statusText := "Error"
                  statusColor := "red" }

/-- `stop_listening` (lines 180-208): returns immediately if not listening
(lines 182-184); otherwise clears the flag, sets the status, closes the
stream if one exists (`closeOk = false` models `stop_stream`/`close`
raising, which is caught and only logged), terminates and drops the audio
object, and flips the three buttons. -/
def stop_listening (s : AppState) (closeOk : Bool) : AppState :=
  if s.is_listening = false then s
  else
    let s1 := { s with is_listening := false
                       statusText := "Stopped"
                       statusColor := "gray" }
    let s2 := if s1.streamOpen = true then
                (if closeOk then { s1 with streamOpen := false } else s1)
              else s1
    let s3 := if s2.audio = true then { s2 with audio := false } else s2
    { s3 with start_button := BtnState.normal
              stop_button := BtnState.disabled
              check_model_button := BtnState.normal }

/-- The outer exception handler of the worker thread (lines 258-261):
clears `is_listening` and defers a status update; buttons and model are
untouched. -/
def thread_error (s : AppState) : AppState :=
  { s with is_listening := false, statusText := "Error", statusColor := "red" }

/-- The externally triggerable events of the application.  Button-command
events fire only while their button is `NORMAL` (tkinter suppresses
commands of `DISABLED` buttons); `threadCrash` is the worker thread's
outer exception handler; `windowClose` is the `on_closing` protocol
handler, which calls `stop_listening` whenever `is_listening` is set. -/
inductive Event where
  | checkModelClick (o : CheckOutcome)
  | startClick (o : StartOutcome)
  | stopClick (closeOk : Bool)
  | browseClick
  | clearClick
  | saveClick
  | threadCrash
  | windowClose (closeOk : Bool)
deriving DecidableEq

/-- One UI transition.  `browseClick` only edits the path entry,
`clearClick` only the transcript widget and `saveClick` only dialogs and
files, so none of them changes a tracked field. -/
def step (s : AppState) : Event → AppState
  | Event.checkModelClick o =>
      if s.check_model_button = BtnState.normal then check_model s o else s
  | Event.startClick o =>
      if s.start_button = BtnState.normal then start_listening s o else s
  | Event.stopClick c =>
      if s.stop_button = BtnState.normal then stop_listening s c else s
  | Event.browseClick => s
  | Event.clearClick => s
  | Event.saveClick => s
  | Event.threadCrash =>
      if s.thread = true then thread_error s else s
  | Event.windowClose c =>
      if s.is_listening = true then stop_listening s c else s

/-- The state reached from application start by a sequence of events. -/
def run (es : List Event) : AppState :=
  es.foldl step initState

/-- Invariant: whenever the start or stop button is enabled or the
application is listening, a model has been loaded. -/
def EnabledRequiresModel (s : AppState) : Prop :=
  (s.start_button = BtnState.normal ∨ s.stop_button = BtnState.normal ∨
      s.is_listening = true) →
    s.modelLoaded = true

/-- The PyAudio sample-format constants. -/
inductive PaFormat where
  | paFloat32
  | paInt32
  | paInt24
  | paInt16
  | paInt8
  | paUInt8
deriving DecidableEq

/-- Bits per sample of a PyAudio format (PortAudio semantics). -/
def PaFormat.sampleBits : PaFormat → Nat
  | PaFormat.paFloat32 => 32
  | PaFormat.paInt32 => 32
  | PaFormat.paInt24 => 24
  | PaFormat.paInt16 => 16
  | PaFormat.paInt8 => 8
  | PaFormat.paUInt8 => 8

/-- Whether a PyAudio format is an integer PCM format. -/
def PaFormat.isIntegerPCM : PaFormat → Bool
  | PaFormat.paFloat32 => false
  | _ => true

/-- The keyword arguments of a `pyaudio` `stream` open call. -/
structure StreamParams where
  format : PaFormat
  channels : Nat
  rate : Nat
  input : Bool
  frames_per_buffer : Nat
deriving DecidableEq

/-- The single `self.audio.open(...)` call of `recognize_speech`
(lines 216-222): `format=pyaudio.paInt16, channels=1, rate=16000,
input=True, frames_per_buffer=8000`. -/
def mic_stream_params : StreamParams :=
  { format := PaFormat.paInt16
    channels := 1
    rate := 16000
    input := true
    frames_per_buffer := 8000 }

/-- The sample rate passed to `KaldiRecognizer(self.model, 16000)` in
`start_listening` (line 161). -/
def recognizer_sample_rate : Nat := 16000

/-- The error-handling sites of `vosk_speech_to_text.py`: the missing-path
branch and the `except` of `check_model` (lines 133-136, 144-146), the
`except` of `start_listening` (lines 174-178), the inner `except` of the
recognition loop (lines 251-254, parameterised by the value of
`is_listening` it reads), the worker thread's outer `except`
(lines 258-261), the stream-close `except` of `stop_listening`
(lines 195-196), and the `except` of `save_transcript` (lines 321-323). -/
inductive ErrorSite where
  | checkModelMissingPath
  | checkModelLoadFail
  | startListeningFail
  | recognitionLoopInner (stillListening : Bool)
  | recognitionLoopOuter
  | stopListeningCloseFail
  | saveTranscriptWriteFail
deriving DecidableEq

/-- What an error handler does: whether it calls `logger.error`, whether
it opens a modal `messagebox` dialog, and whether control then re-attempts
the failed operation. -/
structure HandlerBehavior where
  logsError : Bool
  showsModalDialog : Bool
  reattempts : Bool
deriving DecidableEq

/-- The behaviour of each error handler, transcribed from its `except`
block (or error branch).  The inner recognition-loop handler logs and then
`break`s only if `is_listening` is now `False`; while the flag is still
`True` the loop continues, re-attempting `stream.read`.  The outer thread
handler logs and defers a status update — `update_status` is not a
`messagebox` call.  The stop-listening close handler logs and falls
through. -/
def handlerBehavior : ErrorSite → HandlerBehavior
  | ErrorSite.checkModelMissingPath =>
      { logsError := true, showsModalDialog := true, reattempts := false }
  | ErrorSite.checkModelLoadFail =>
      { logsError := true, showsModalDialog := true, reattempts := false }
  | ErrorSite.startListeningFail =>
      { logsError := true, showsModalDialog := true, reattempts := false }
  | ErrorSite.recognitionLoopInner stillListening =>
      { logsError := true, showsModalDialog := false, reattempts := stillListening }
  | ErrorSite.recognitionLoopOuter =>
      { logsError := true, showsModalDialog := false, reattempts := false }
  | ErrorSite.stopListeningCloseFail =>
      { logsError := true, showsModalDialog := false, reattempts := false }
  | ErrorSite.saveTranscriptWriteFail =>
      { logsError := true, showsModalDialog := true, reattempts := false }

end Vosk

namespace BuildExe

/-- `os.path.basename` for POSIX paths: the component after the last
separator (everything after the last slash). -/
def pyBasename (p : String) : String :=
  String.mk ((p.toList.reverse.takeWhile (fun c => c ≠ '/')).reverse)

/-- The root part of `os.path.splitext` applied to a basename (no
separators): split at the last dot, unless every character before that dot
is itself a dot (Python's `_splitext`). -/
def pySplitextRoot (nm : String) : String :=
  let cs := nm.toList
  match ((List.range cs.length).filter (fun i => cs.getD i ' ' = '.')).getLast? with
  | none => nm
  | some i =>
      if (cs.take i).all (fun c => c = '.') then nm
      else String.mk (cs.take i)

/-- The parameters of `build_executable` (build_exe.py line 128):
`output_name=None` and empty-string are both falsy in the
`if not output_name:` default, so the optional strings model Python's
`None`-or-string arguments. -/
structure BuildOptions where
  script_path : String
  output_name : Option String
  one_file : Bool
  console : Bool
  icon : Option String
  include_model : Bool
  model_path : Option String
deriving DecidableEq

/-- Lines 132-133: `if not output_name: output_name =
os.path.splitext(os.path.basename(script_path))[0]`. -/
def resolved_output_name (o : BuildOptions) : String :=
  match o.output_name with
  | some n => if n = "" then pySplitextRoot (pyBasename o.script_path) else n
  | none => pySplitextRoot (pyBasename o.script_path)

/-- The argument vector `build_executable` (lines 135-157) passes to the
PyInstaller subprocess, built exactly as in the source: the base list,
then `--onefile` if `one_file`, `--windowed` if not `console`, `--icon` if
an icon is supplied and exists on disk (`path_exists` models
`os.path.exists`), `--add-data` if a model is included, supplied and
exists (`sep` models `os.pathsep`), and finally the script path. -/
def pyinstaller_args (path_exists : String → Bool) (sep : String)
    (o : BuildOptions) : List String :=
  let output_name := resolved_output_name o
  let args0 := ["pyinstaller", "--name=" ++ output_name, "--clean"]
  let args1 := if o.one_file then args0 ++ ["--onefile"] else args0
  let args2 := if o.console then args1 else args1 ++ ["--windowed"]
  let args3 :=
    match o.icon with
    | some ic => if ic ≠ "" ∧ path_exists ic = true then args2 ++ ["--icon=" ++ ic] else args2
    | none => args2
  let args4 :=
    match o.model_path with
    | some mp =>
        if o.include_model = true ∧ mp ≠ "" ∧ path_exists mp = true then
          args3 ++ ["--add-data=" ++ mp ++ sep ++ "model/" ++ pyBasename mp]
        else args3
    | none => args3
  args4 ++ [o.script_path]

end BuildExe

namespace Vosk

/-- Claim C1: the transcript buffer is append-only until cleared — every
transcript-widget-modifying operation either appends a (possibly empty)
suffix to the existing buffer, or empties the buffer entirely. -/
theorem transcript_ops_append_or_clear (op : TranscriptOp) (buffer : String) :
    (∃ suffix, apply_transcript_op op buffer = buffer ++ suffix) ∨
      apply_transcript_op op buffer = "" := by
  cases op with
  | add t =>
    left
    by_cases ht : pyStrip t ≠ ""
    · by_cases hb : pyStrip buffer ≠ ""
      · exact ⟨" " ++ pyStrip t ++ "\n", by simp [apply_transcript_op, add_transcript_impl, ht, hb]⟩
      · exact ⟨pyStrip t ++ "\n", by simp [apply_transcript_op, add_transcript_impl, ht, hb]⟩
    · exact ⟨"", by simp [apply_transcript_op, add_transcript_impl, ht]⟩
  | clear =>
    right
    rfl

/-- Claim C10: saving an empty transcript is a guarded no-op — when the
buffer strips to empty, `save_transcript` shows only the informational
dialog, opens no save dialog and writes no file; a file write occurs only
when the stripped transcript is non-empty, the user supplied a filename
and the write raised no exception, and it writes exactly the stripped
transcript to the chosen filename. -/
theorem save_empty_transcript_guarded (buffer chosen : String) (writeErr : Option String) :
    (pyStrip buffer = "" →
       save_transcript buffer chosen writeErr =
         [SaveEffect.showInfo "Save Transcript" "No transcript to save."] ∧
       SaveEffect.askSaveFilename ∉ save_transcript buffer chosen writeErr ∧
       ∀ n c, SaveEffect.writeFile n c ∉ save_transcript buffer chosen writeErr) ∧
    (∀ n c, SaveEffect.writeFile n c ∈ save_transcript buffer chosen writeErr →
       pyStrip buffer ≠ "" ∧ n = chosen ∧ chosen ≠ "" ∧ c = pyStrip buffer ∧ writeErr = none) ∧
    (pyStrip buffer ≠ "" → chosen ≠ "" → writeErr = none →
       SaveEffect.writeFile chosen (pyStrip buffer) ∈ save_transcript buffer chosen writeErr) := by
  by_cases hb : pyStrip buffer = ""
  · refine ⟨fun _ => ⟨?_, ?_, ?_⟩, ?_, fun hb' => absurd hb hb'⟩
    · simp [save_transcript, hb]
    · simp [save_transcript, hb]
    · intro n c
      simp [save_transcript, hb]
    · intro n c hmem
      simp [save_transcript, hb] at hmem
  · refine ⟨fun hb' => absurd hb' hb, ?_, ?_⟩
    · intro n c hmem
      by_cases hc : chosen = ""
      · simp [save_transcript, hb, hc] at hmem
      · cases writeErr with
        | none =>
          simp [save_transcript, hb, hc] at hmem
          exact ⟨hb, hmem.1, hc, hmem.2, rfl⟩
        | some e =>
          simp [save_transcript, hb, hc] at hmem
    · intro _ hc hw
      subst hw
      simp [save_transcript, hb, hc]

/-- Helper: every chunk read the recognition loop issues requests exactly
4000 frames. -/
theorem recognizeLoop_reads_4000 (its : List IterInput) :
    ∀ r ∈ (recognizeLoop its).1, r = 4000 := by
  induction its with
  | nil =>
    intro r hr
    simp [recognizeLoop] at hr
  | cons it rest ih =>
    intro r hr
    by_cases hf : it.whileFlag = true
    · cases ho : it.outcome with
      | emptyChunk =>
        simp [recognizeLoop, hf, ho] at hr
        rcases hr with hr | hr
        · exact hr
        · exact ih r hr
      | finalResult t =>
        simp [recognizeLoop, hf, ho] at hr
        rcases hr with hr | hr
        · exact hr
        · exact ih r hr
      | partialResult t =>
        simp [recognizeLoop, hf, ho] at hr
        rcases hr with hr | hr
        · exact hr
        · exact ih r hr
      | raised =>
        by_cases he : it.exceptFlag = true
        · simp [recognizeLoop, hf, ho, he] at hr
          rcases hr with hr | hr
          · exact hr
          · exact ih r hr
        · simp [recognizeLoop, hf, ho, he] at hr
          exact hr
    · simp [recognizeLoop, hf] at hr

/-- Helper: every UI effect the recognition loop emits is a deferred
`root.after` callback. -/
theorem recognizeLoop_effects_deferred (its : List IterInput) :
    ∀ e ∈ (recognizeLoop its).2, e.isDeferred = true := by
  induction its with
  | nil =>
    intro e he
    simp [recognizeLoop] at he
  | cons it rest ih =>
    intro e he
    by_cases hf : it.whileFlag = true
    · cases ho : it.outcome with
      | emptyChunk =>
        simp [recognizeLoop, hf, ho] at he
        exact ih e he
      | finalResult t =>
        simp [recognizeLoop, hf, ho] at he
        by_cases ht : t = ""
        · simp [ht] at he
          exact ih e he
        · simp [ht] at he
          rcases he with he | he
          · subst he; rfl
          · exact ih e he
      | partialResult t =>
        simp [recognizeLoop, hf, ho] at he
        by_cases ht : t = ""
        · simp [ht] at he
          exact ih e he
        · simp [ht] at he
          rcases he with he | he
          · subst he; rfl
          · exact ih e he
      | raised =>
        by_cases hx : it.exceptFlag = true
        · simp [recognizeLoop, hf, ho, hx] at he
          exact ih e he
        · simp [recognizeLoop, hf, ho, hx] at he
    · simp [recognizeLoop, hf] at he

/-- Claim C2: cancellation is a boolean flag checked each loop iteration —
if from iteration `n` onwards every `while`-condition read of
`is_listening` observes `False`, then the loop issues at most `n` chunk
reads: no new audio chunk is read once the flag stays `False`. -/
theorem recognize_loop_stops_after_flag_false (its : List IterInput) (n : Nat)
    (h : ∀ it ∈ its.drop n, it.whileFlag = false) :
    (recognizeLoop its).1.length ≤ n := by
  induction its generalizing n with
  | nil => simp [recognizeLoop]
  | cons it rest ih =>
    by_cases hf : it.whileFlag = true
    · cases n with
      | zero =>
        have := h it (by simp)
        rw [hf] at this
        exact absurd this (by simp)
      | succ m =>
        have h' : ∀ x ∈ rest.drop m, x.whileFlag = false := by
          intro x hx
          exact h x (by simpa using hx)
        have hrec := ih m h'
        cases ho : it.outcome with
        | emptyChunk =>
          simp only [recognizeLoop, hf, ho, if_true, List.length_cons]
          omega
        | finalResult t =>
          simp only [recognizeLoop, hf, ho, if_true, List.length_cons]
          omega
        | partialResult t =>
          simp only [recognizeLoop, hf, ho, if_true, List.length_cons]
          omega
        | raised =>
          by_cases hx : it.exceptFlag = true
          · simp only [recognizeLoop, hf, ho, hx, if_true, List.length_cons]
            omega
          · simp only [recognizeLoop, hf, ho, hx, if_false, List.length_cons]
            simp
    · simp [recognizeLoop, hf]

/-- Witness for C2: with the flag observed `True` on iteration 0 and
`False` from iteration 1 onwards, at most one chunk is read. -/
theorem recognize_loop_stops_after_flag_false_witness :
    (∀ it ∈ ([⟨true, BodyOutcome.emptyChunk, true⟩,
              ⟨false, BodyOutcome.emptyChunk, false⟩] : List IterInput).drop 1,
        it.whileFlag = false) ∧
    (recognizeLoop [⟨true, BodyOutcome.emptyChunk, true⟩,
                    ⟨false, BodyOutcome.emptyChunk, false⟩]).1.length ≤ 1 :=
  ⟨by decide,
   recognize_loop_stops_after_flag_false
     [⟨true, BodyOutcome.emptyChunk, true⟩, ⟨false, BodyOutcome.emptyChunk, false⟩]
     1 (by decide)⟩

/-- Claim C6: every stream read issued by `recognize_speech` requests
exactly 4000 frames, and every UI effect the worker emits is delivered via
a deferred `root.after` callback, never by direct widget mutation. -/
theorem loop_reads_fixed_chunks_and_defers_ui (its : List IterInput) (openOk : Bool) :
    (∀ r ∈ (recognize_speech its openOk).1, r = 4000) ∧
    (∀ e ∈ (recognize_speech its openOk).2, e.isDeferred = true) := by
  constructor
  · intro r hr
    cases openOk with
    | true => exact recognizeLoop_reads_4000 its r (by simpa [recognize_speech] using hr)
    | false => simp [recognize_speech] at hr
  · intro e he
    cases openOk with
    | true => exact recognizeLoop_effects_deferred its e (by simpa [recognize_speech] using he)
    | false =>
      simp [recognize_speech] at he
      subst he
      rfl

/-- Witness for C6 at a concrete one-iteration run producing a final
result. -/
theorem loop_reads_fixed_chunks_and_defers_ui_witness :
    (4000 ∈ (recognize_speech [⟨true, BodyOutcome.finalResult "hi", true⟩] true).1 ∧
     add_transcript "hi" ∈ (recognize_speech [⟨true, BodyOutcome.finalResult "hi", true⟩] true).2) ∧
    (4000 = 4000 ∧ (add_transcript "hi").isDeferred = true) :=
  ⟨⟨by decide, by decide⟩,
   ⟨(loop_reads_fixed_chunks_and_defers_ui [⟨true, BodyOutcome.finalResult "hi", true⟩] true).1
      4000 (by decide),
    (loop_reads_fixed_chunks_and_defers_ui [⟨true, BodyOutcome.finalResult "hi", true⟩] true).2
      (add_transcript "hi") (by decide)⟩⟩

/-- Helper: `start_listening` never changes `modelLoaded`. -/
theorem start_listening_modelLoaded (s : AppState) (o : StartOutcome) :
    (start_listening s o).modelLoaded = s.modelLoaded := by
  unfold start_listening
  split
  · rfl
  · cases o <;> rfl

/-- Helper: `stop_listening` never changes `modelLoaded`. -/
theorem stop_listening_modelLoaded (s : AppState) (c : Bool) :
    (stop_listening s c).modelLoaded = s.modelLoaded := by
  unfold stop_listening
  split
  · rfl
  · dsimp only
    split_ifs <;> rfl

/-- Helper: one UI transition preserves the invariant that an enabled
start/stop button (or active listening) implies a loaded model. -/
theorem step_preserves_enabledRequiresModel (s : AppState) (e : Event)
    (h : EnabledRequiresModel s) : EnabledRequiresModel (step s e) := by
  unfold EnabledRequiresModel at h ⊢
  cases e with
  | checkModelClick o =>
    by_cases hc : s.check_model_button = BtnState.normal
    · cases o with
      | pathMissing => simpa [step, hc, check_model] using h
      | loadFail => simpa [step, hc, check_model] using h
      | loadOk => intro _; simp [step, hc, check_model]
    · simpa [step, hc] using h
  | startClick o =>
    by_cases hs : s.start_button = BtnState.normal
    · have hm : s.modelLoaded = true := h (Or.inl hs)
      intro _
      simp [step, hs, start_listening_modelLoaded, hm]
    · simpa [step, hs] using h
  | stopClick c =>
    by_cases hs : s.stop_button = BtnState.normal
    · have hm : s.modelLoaded = true := h (Or.inr (Or.inl hs))
      intro _
      simp [step, hs, stop_listening_modelLoaded, hm]
    · simpa [step, hs] using h
  | browseClick => simpa [step] using h
  | clearClick => simpa [step] using h
  | saveClick => simpa [step] using h
  | threadCrash =>
    by_cases ht : s.thread = true
    · intro hh
      simp only [step, ht, if_true, thread_error] at hh ⊢
      rcases hh with h1 | h2 | h3
      · exact h (Or.inl h1)
      · exact h (Or.inr (Or.inl h2))
      · exact absurd h3 (by simp)
    · simpa [step, ht] using h
  | windowClose c =>
    by_cases hl : s.is_listening = true
    · have hm : s.modelLoaded = true := h (Or.inr (Or.inr hl))
      intro _
      simp [step, hl, stop_listening_modelLoaded, hm]
    · simpa [step, hl] using h

/-- Helper: the invariant holds along any event sequence. -/
theorem foldl_preserves_enabledRequiresModel (es : List Event) (s : AppState)
    (h : EnabledRequiresModel s) : EnabledRequiresModel (es.foldl step s) := by
  induction es generalizing s with
  | nil => simpa using h
  | cons e rest ih => exact ih (step s e) (step_preserves_enabledRequiresModel s e h)

/-- Helper: the only transition that sets `modelLoaded` is a successful
`check_model` click. -/
theorem step_modelLoaded_origin (s : AppState) (e : Event)
    (h : (step s e).modelLoaded = true) :
    s.modelLoaded = true ∨ e = Event.checkModelClick CheckOutcome.loadOk := by
  cases e with
  | checkModelClick o =>
    cases o with
    | pathMissing => left; simpa [step, check_model, ite_self] using h
    | loadFail => left; simpa [step, check_model, ite_self] using h
    | loadOk => right; rfl
  | startClick o =>
    left
    by_cases hs : s.start_button = BtnState.normal
    · simpa [step, hs, start_listening_modelLoaded] using h
    · simpa [step, hs] using h
  | stopClick c =>
    left
    by_cases hs : s.stop_button = BtnState.normal
    · simpa [step, hs, stop_listening_modelLoaded] using h
    · simpa [step, hs] using h
  | browseClick => left; simpa [step] using h
  | clearClick => left; simpa [step] using h
  | saveClick => left; simpa [step] using h
  | threadCrash =>
    left
    by_cases ht : s.thread = true
    · simpa [step, ht, thread_error] using h
    · simpa [step, ht] using h
  | windowClose c =>
    left
    by_cases hl : s.is_listening = true
    · simpa [step, hl, stop_listening_modelLoaded] using h
    · simpa [step, hl] using h

/-- Helper: along any event sequence, a loaded model traces back to a
successful `check_model` click. -/
theorem foldl_modelLoaded_origin (es : List Event) (s : AppState)
    (h : (es.foldl step s).modelLoaded = true) :
    s.modelLoaded = true ∨ Event.checkModelClick CheckOutcome.loadOk ∈ es := by
  induction es generalizing s with
  | nil => left; simpa using h
  | cons e rest ih =>
    rcases ih (step s e) (by simpa using h) with h1 | h2
    · rcases step_modelLoaded_origin s e h1 with h3 | h4
      · left; exact h3
      · right; simp [h4]
    · right; simp [h2]

/-- Claim C4: the start button is disabled at application start, and in
every reachable UI state it is enabled only if some prior `check_model`
call successfully constructed a `Model`. -/
theorem start_button_enabled_requires_model_load :
    initState.start_button = BtnState.disabled ∧
    ∀ es : List Event, (run es).start_button = BtnState.normal →
      Event.checkModelClick CheckOutcome.loadOk ∈ es := by
  refine ⟨rfl, ?_⟩
  intro es hstart
  have hinit : EnabledRequiresModel initState := by
    intro hh
    rcases hh with h | h | h <;> simp [initState] at h
  have hinv := foldl_preserves_enabledRequiresModel es initState hinit
  have hm : (es.foldl step initState).modelLoaded = true := hinv (Or.inl hstart)
  rcases foldl_modelLoaded_origin es initState hm with h | h
  · simp [initState] at h
  · exact h

/-- Witness for C4: after a single successful model check the start button
is enabled, and that event occurs in the sequence. -/
theorem start_button_enabled_requires_model_load_witness :
    (run [Event.checkModelClick CheckOutcome.loadOk]).start_button = BtnState.normal ∧
    Event.checkModelClick CheckOutcome.loadOk ∈ [Event.checkModelClick CheckOutcome.loadOk] :=
  ⟨by decide,
   start_button_enabled_requires_model_load.2
     [Event.checkModelClick CheckOutcome.loadOk] (by decide)⟩

/-- Claim C7: a `stop_listening` call made while `is_listening` is true
re-enables the start button, disables the stop button, and clears
`is_listening`. -/
theorem stop_reenables_start (s : AppState) (c : Bool) (h : s.is_listening = true) :
    (stop_listening s c).start_button = BtnState.normal ∧
    (stop_listening s c).stop_button = BtnState.disabled ∧
    (stop_listening s c).is_listening = false := by
  unfold stop_listening
  rw [h]
  simp only [Bool.true_eq_false, if_false]
  split_ifs <;> simp

/-- Witness for C7 at a concrete listening state. -/
theorem stop_reenables_start_witness :
    ({ initState with is_listening := true } : AppState).is_listening = true ∧
    ((stop_listening { initState with is_listening := true } true).start_button =
        BtnState.normal ∧
     (stop_listening { initState with is_listening := true } true).stop_button =
        BtnState.disabled ∧
     (stop_listening { initState with is_listening := true } true).is_listening = false) :=
  ⟨rfl, stop_reenables_start { initState with is_listening := true } true rfl⟩

/-- Claim C9: the listening-flag guards make redundant calls no-ops —
`start_listening` while already listening returns the state unchanged, and
`stop_listening` while not listening returns the state unchanged. -/
theorem start_stop_noop_guards (s : AppState) (o : StartOutcome) (c : Bool) :
    (s.is_listening = true → start_listening s o = s) ∧
    (s.is_listening = false → stop_listening s c = s) := by
  constructor
  · intro h
    unfold start_listening
    rw [h]
    simp
  · intro h
    unfold stop_listening
    rw [h]
    simp

/-- Witness for C9: the guards fire at concrete states on both sides. -/
theorem start_stop_noop_guards_witness :
    (({ initState with is_listening := true } : AppState).is_listening = true ∧
      start_listening { initState with is_listening := true } StartOutcome.ok =
        { initState with is_listening := true }) ∧
    (initState.is_listening = false ∧ stop_listening initState true = initState) :=
  ⟨⟨rfl, (start_stop_noop_guards { initState with is_listening := true }
            StartOutcome.ok true).1 rfl⟩,
   ⟨rfl, (start_stop_noop_guards initState StartOutcome.ok true).2 rfl⟩⟩

/-- Witness for C10 at the concrete buffer "hello world" and filename
"out.txt" with a successful write. -/
theorem save_empty_transcript_guarded_witness :
    (pyStrip "hello world" ≠ "" ∧ ("out.txt" : String) ≠ "" ∧
       (none : Option String) = none) ∧
    SaveEffect.writeFile "out.txt" (pyStrip "hello world") ∈
      save_transcript "hello world" "out.txt" none :=
  ⟨⟨by decide, by decide, rfl⟩,
   (save_empty_transcript_guarded "hello world" "out.txt" none).2.2
     (by decide) (by decide) rfl⟩

/-- Counterexample for C3 as stated: an error raised inside the
recognition loop while `is_listening` is still true is handled without any
modal dialog, and the loop then re-attempts the read — so it is not the
case that this handler both shows a dialog and avoids re-attempting. -/
theorem loop_error_handler_shows_no_dialog :
    ¬ ((handlerBehavior (ErrorSite.recognitionLoopInner true)).showsModalDialog = true ∧
       (handlerBehavior (ErrorSite.recognitionLoopInner true)).reattempts = false) := by
  decide

/-- Amended C3: every handler logs; the `check_model`, `start_listening`
and `save_transcript` handlers (and only those) also show a modal dialog;
only the inner recognition-loop handler with `is_listening` still true
re-attempts the failed operation — concretely, after a raised iteration
with the flag still true the loop issues another 4000-frame read — and an
error escaping to the thread's outer handler is surfaced only through a
deferred status update, not a dialog. -/
theorem error_handlers_log_dialog_retry_profile :
    (∀ site : ErrorSite,
       (handlerBehavior site).logsError = true ∧
       ((handlerBehavior site).showsModalDialog = true ↔
          (site = ErrorSite.checkModelMissingPath ∨ site = ErrorSite.checkModelLoadFail ∨
           site = ErrorSite.startListeningFail ∨ site = ErrorSite.saveTranscriptWriteFail)) ∧
       ((handlerBehavior site).reattempts = true ↔
          site = ErrorSite.recognitionLoopInner true)) ∧
    (recognizeLoop [⟨true, BodyOutcome.raised, true⟩,
                    ⟨true, BodyOutcome.emptyChunk, true⟩]).1 = [4000, 4000] ∧
    (recognize_speech [] false).2 = [deferred_status_update "Error" "red"] := by
  refine ⟨?_, by decide, rfl⟩
  intro site
  cases site with
  | checkModelMissingPath => decide
  | checkModelLoadFail => decide
  | startListeningFail => decide
  | recognitionLoopInner b => cases b <;> decide
  | recognitionLoopOuter => decide
  | stopListeningCloseFail => decide
  | saveTranscriptWriteFail => decide

/-- Claim C8: the microphone stream is opened mono (1 channel) at 16000 Hz
in 16-bit integer PCM, and the recognizer is constructed with the matching
16000 Hz rate. -/
theorem mic_stream_mono_16k_pcm :
    mic_stream_params.channels = 1 ∧
    mic_stream_params.rate = 16000 ∧
    mic_stream_params.format = PaFormat.paInt16 ∧
    PaFormat.sampleBits mic_stream_params.format = 16 ∧
    PaFormat.isIntegerPCM mic_stream_params.format = true ∧
    recognizer_sample_rate = mic_stream_params.rate := by
  decide

end Vosk

namespace BuildExe

/-- Counterexample for C5 as stated: two invocations of
`build_executable` that differ only in `one_file` pass different argument
vectors to the PyInstaller subprocess, so the argument list is not a fixed
list independent of the options. -/
theorem pyinstaller_args_vary_with_options :
    pyinstaller_args (fun _ => false) ":"
        { script_path := "vosk_speech_to_text.py", output_name := none, one_file := true,
          console := false, icon := none, include_model := false, model_path := none } ≠
      pyinstaller_args (fun _ => false) ":"
        { script_path := "vosk_speech_to_text.py", output_name := none, one_file := false,
          console := false, icon := none, include_model := false, model_path := none } := by
  decide

/-- Amended C5: the PyInstaller argument vector is a deterministic
function of the build options and the filesystem — a fixed prefix
`pyinstaller --name=<resolved output name> --clean`, then `--onefile` iff
`one_file`, `--windowed` iff `console` is off, `--icon` iff an icon is
supplied and exists, `--add-data` iff a model is included, supplied and
exists, ending with the script path. -/
theorem pyinstaller_args_closed_form (path_exists : String → Bool) (sep : String)
    (o : BuildOptions) :
    pyinstaller_args path_exists sep o =
      ["pyinstaller", "--name=" ++ resolved_output_name o, "--clean"] ++
        (if o.one_file then ["--onefile"] else []) ++
        (if o.console then [] else ["--windowed"]) ++
        (match o.icon with
         | some ic => if ic ≠ "" ∧ path_exists ic = true then ["--icon=" ++ ic] else []
         | none => []) ++
        (match o.model_path with
         | some mp =>
             if o.include_model = true ∧ mp ≠ "" ∧ path_exists mp = true then
               ["--add-data=" ++ mp ++ sep ++ "model/" ++ pyBasename mp]
             else []
         | none => []) ++
        [o.script_path] := by
  obtain ⟨sp, oname, onef, oc, oi, im, mp⟩ := o
  unfold pyinstaller_args
  cases oi <;> cases mp <;> dsimp only <;> split_ifs <;> simp

end BuildExe
